import Mathlib

/-!
Shallow embedding of the analytics core of the Finance Intelligence
Dashboard (`Code/utils.py` and `Code/visualize.py`).

A transaction table is a list of rows (date, category, signed amount)
together with two optional derived columns that the components may write
back into the caller's table: a `Month` column and an `Anomaly` column.
Amounts are rationals. A calendar month is encoded as its linear index
`year * 12 + (month - 1)`, so that month arithmetic and ordering are plain
natural-number arithmetic; the code renders this index as `"YYYY-MM"`.

The external numerical libraries (the isolation-forest scorer, the
seasonal SARIMAX fitter/forecaster, the k-means labeller) are not part of
this repository; each is represented by an explicit function parameter,
and where a claim depends on documented library semantics (percentile
thresholding, forecast index generation, quantile interpolation) that
behaviour is defined below from its documented contract.
-/

/-- A calendar date, `year`/`month` (1–12)/`day`. -/
structure Date where
  year : Nat
  month : Nat
  day : Nat
deriving DecidableEq, Repr

/-- Chronological comparison of dates (the order `pandas.sort_values`
uses on a datetime series). -/
def dateLe (a b : Date) : Bool :=
  if a.year < b.year then true
  else if b.year < a.year then false
  else if a.month < b.month then true
  else if b.month < a.month then false
  else decide (a.day ≤ b.day)

/-- The `Month` key of a date: `Date.dt.to_period("M")`, encoded as the
linear month index `year * 12 + (month - 1)`. -/
def monthOf (d : Date) : Nat :=
  d.year * 12 + (d.month - 1)

/-- The first day of an encoded month: `pd.to_datetime(str(month) + "-01")`. -/
def monthFirstDay (m : Nat) : Date :=
  ⟨m / 12, m % 12 + 1, 1⟩

/-- One ledger row: `Date`, `Category`, signed `Amount`. -/
structure Row where
  date : Date
  category : String
  amount : ℚ
deriving DecidableEq, Repr

/-- A transaction table: the rows plus the optional derived columns that
components may assign into the caller's frame (`df["Month"] = ...`,
`df["Anomaly"] = ...`). `none` means the column is absent. -/
structure Table where
  rows : List Row
  monthCol : Option (List Nat)
  anomalyCol : Option (List Int)
deriving DecidableEq, Repr

/-- Ordered insertion with respect to a boolean comparison. -/
def insertLe {α : Type} (le : α → α → Bool) (x : α) : List α → List α
  | [] => [x]
  | y :: ys => if le x y then x :: y :: ys else y :: insertLe le x ys

/-- Insertion sort with respect to a boolean comparison (models the
ascending sorts performed by `sort_values`, `groupby` key ordering and
`np.sort`). -/
def isort {α : Type} (le : α → α → Bool) : List α → List α
  | [] => []
  | x :: xs => insertLe le x (isort le xs)

/-- Ascending comparison on naturals, as a boolean. -/
def natLe (a b : Nat) : Bool := decide (a ≤ b)

/-- Ascending comparison on rationals, as a boolean. -/
def ratLe (a b : ℚ) : Bool := decide (a ≤ b)

/-- Modelled from the spec: the linear-interpolation quantile used by
`pandas.Series.quantile(q)` and `np.percentile(xs, 100*q)` (the library
code is not part of this repository). On the sorted values `s` of length
`n` it evaluates position `h = q * (n - 1)`, interpolating between the
neighbouring order statistics. -/
def quantile (xs : List ℚ) (q : ℚ) : ℚ :=
  let s := isort ratLe xs
  let n := s.length
  if n = 0 then 0
  else
    let h : ℚ := q * ((n : ℚ) - 1)
    let i : Nat := ⌊h⌋.toNat
    let lo := s.getD i 0
    let hi := s.getD (min (i + 1) (n - 1)) 0
    lo + (h - (i : ℚ)) * (hi - lo)

/-- `groupby(key).sum()` on (key, value) pairs: the distinct keys in
ascending order, each with the sum of its values (pandas sorts group
keys ascending). -/
def groupAgg (pairs : List (Nat × ℚ)) : List (Nat × ℚ) :=
  (isort natLe (pairs.map Prod.fst).dedup).map
    (fun m => (m, ((pairs.filter (fun p => decide (p.1 = m))).map Prod.snd).sum))

/-- `compute_kpis` (utils.py): monthly income/expense/savings KPIs.
Returns the four KPIs together with the table as left behind by the
call (the function assigns `df["Month"]` into the caller's frame before
aggregating). -/
def compute_kpis (t : Table) : (ℚ × ℚ × ℚ × ℚ) × Table :=
  if t.rows.isEmpty then ((0, 0, 0, 0), t)
  else
    let months := t.rows.map (fun r => monthOf r.date)
    let t' := { t with monthCol := some months }
    let months_count := months.dedup.length
    let total_income :=
      ((t.rows.filter (fun r => decide (r.category = "Salary"))).map
        (fun r => r.amount)).sum
    let total_expense :=
      if months_count > 0 then
        ((t.rows.filter (fun r => decide (r.amount < 0))).map
          (fun r => |r.amount|)).sum / (months_count : ℚ)
      else 0
    let income :=
      if months_count > 0 then total_income / (months_count : ℚ) else 0
    let savings := income - total_expense
    let savings_rate := if total_income > 0 then savings / income * 100 else 0
    ((income, total_expense, savings, savings_rate), t')

/-- `%b` month abbreviation of `strftime`. -/
def monthAbbrev : Nat → String
  | 1 => "Jan"
  | 2 => "Feb"
  | 3 => "Mar"
  | 4 => "Apr"
  | 5 => "May"
  | 6 => "Jun"
  | 7 => "Jul"
  | 8 => "Aug"
  | 9 => "Sep"
  | 10 => "Oct"
  | 11 => "Nov"
  | 12 => "Dec"
  | _ => ""

/-- `months_sorted` (utils.py): sort the dates chronologically
(`sort_values`), render each as its `%b` month abbreviation, and join
with `", "`. -/
def months_sorted (dates : List Date) : String :=
  String.intercalate ", " ((isort dateLe dates).map (fun d => monthAbbrev d.month))

/-- `describe_cluster` (utils.py): tier label from the two quantile
thresholds. -/
def describe_cluster (avg q1 q2 : ℚ) : String :=
  if avg < q1 then "Low spending month"
  else if avg < q2 then "Medium spending month"
  else "High spending month"

/-- Dictionary lookup with a default (`dict.get(k, default)`). -/
def lookupD (k : String) (m : List (String × String)) (d : String) : String :=
  match m.find? (fun p => p.1 == k) with
  | some p => p.2
  | none => d

/-- `color_dot` (utils.py): HTML dot coloured by the cluster's entry in
the palette, defaulting to gray. -/
def color_dot (cluster : String) (cluster_colors : List (String × String)) : String :=
  "<span style=\x27color:" ++ lookupD cluster cluster_colors "gray" ++
    "; font-size:20px;\x27>&#9679;</span>"

/-- The fixed cluster palette of `spending_clusters` (visualize.py). -/
def cluster_colors : List (String × String) :=
  [("0", "rgb(220, 20, 60)"), ("1", "rgb(34, 139, 34)"), ("2", "rgb(30, 144, 255)")]

/-- Modelled from the spec: the decision rule of the seeded
isolation-forest predictor (`sklearn.IsolationForest.fit_predict`, not
part of this repository). Per spec §4.2, the fitted ensemble assigns
each amount a score (here the abstract `score`, a function of the
training multiset and the point), the contamination parameter (5%) sets
the decision threshold at that percentile of the score distribution, and
a point is labelled anomalous (`-1`) exactly when its score falls
strictly below the threshold. -/
def iso_labels (score : List ℚ → ℚ → ℚ) (contamination : ℚ) (amounts : List ℚ) : List Int :=
  let s := amounts.map (score amounts)
  let offset := quantile s contamination
  s.map (fun x => if x < offset then (-1 : Int) else 1)

/-- `show_anomalies` (visualize.py): on a non-empty table, assign
`df["Anomaly"]` from the seeded isolation forest (contamination 5%) and
return the rows labelled `-1`, together with the table as left behind by
the call (the `Anomaly` column is written into the caller's frame). -/
def show_anomalies (score : List ℚ → ℚ → ℚ) (t : Table) : List Row × Table :=
  if t.rows.isEmpty then ([], t)
  else
    let labels := iso_labels score (5 / 100) (t.rows.map (fun r => r.amount))
    let t' := { t with anomalyCol := some labels }
    (((t.rows.zip labels).filter (fun p => decide (p.2 = -1))).map Prod.fst, t')

/-- The monthly absolute-expense series of `forecast_expenses`: filter
to expense rows, take absolute values, aggregate by the month of the
date (`groupby(Date.dt.to_period("M")).sum()`, keys ascending). -/
def expenseSeries (rows : List Row) : List (Nat × ℚ) :=
  groupAgg ((rows.filter (fun r => decide (r.amount < 0))).map
    (fun r => (monthOf r.date, |r.amount|)))

/-- The last observed month of a monthly series (the series is ascending,
so this is its maximum); 0 on an empty series. -/
def lastObservedMonth (s : List (Nat × ℚ)) : Nat :=
  (s.getLast?.getD (0, 0)).1

/-- One output row of `forecast_expenses`: the future month (encoded;
the code renders it as `"YYYY-MM"`), the point estimate, and the
confidence bounds. -/
structure ForecastRow where
  month : Nat
  predicted_expense : ℚ
  lower_ci : ℚ
  upper_ci : ℚ
deriving DecidableEq, Repr

/-- `forecast_expenses` (visualize.py). The SARIMAX library is not part
of this repository, so the model is abstract: `fit` models
`SARIMAX(...).fit()` (which the code wraps in `try/except`, returning an
empty frame on failure), and `getForecast` models
`results.get_forecast(steps)` (which the code does NOT wrap — an error
raised there propagates, modelled by `Except.error`). Per spec §4.3
step 5, a successful forecast of `steps` months is indexed at the months
immediately following the last observed month, one per step. -/
def forecast_expenses {M : Type} (fit : List (Nat × ℚ) → Except String M)
    (getForecast : M → Nat → Except String (Nat → ℚ × ℚ × ℚ))
    (t : Table) (forecast_months : Nat) : Except String (List ForecastRow) :=
  if t.rows.isEmpty then .ok []
  else
    let monthly := expenseSeries t.rows
    if monthly.length < 6 then .ok []
    else
      match fit monthly with
      | .error _ => .ok []
      | .ok m =>
        match getForecast m forecast_months with
        | .error e => .error e
        | .ok f =>
          .ok ((List.range forecast_months).map (fun i =>
            ⟨lastObservedMonth monthly + (i + 1), (f i).1, (f i).2.1, (f i).2.2⟩))

/-- One row of the cluster-explanation table displayed by
`spending_clusters`: cluster id, tier description, mean expense,
chronological month rendering, colour dot. -/
structure SummaryRow where
  cluster : Nat
  description : String
  amount : ℚ
  months : String
  color : String
deriving DecidableEq, Repr

/-- The result of `spending_clusters`: the monthly aggregate rows
(Month, Amount), the `Cluster` column when the clustering step was
reached (`none` models the frame returned without that column), and the
displayed cluster-explanation table. -/
structure ClustersResult where
  monthly : List (Nat × ℚ)
  clusters : Option (List Nat)
  summary : List SummaryRow
deriving DecidableEq, Repr

/-- The (Month, |Amount|) pairs of the expense rows of a table whose
`Month` column is `ms`, as read by `spending_clusters`. -/
def clusterExpensePairs (t : Table) (ms : List Nat) : List (Nat × ℚ) :=
  ((t.rows.zip ms).filter (fun p => decide (p.1.amount < 0))).map
    (fun p => (p.2, |p.1.amount|))

/-- `spending_clusters` (visualize.py). The k-means labeller
(`sklearn.KMeans`, not part of this repository) is the abstract
`labelsFn`, mapping the monthly amounts and `k = min 3 n` to one integer
label per month. The function groups expense rows by the table's `Month`
column (a missing column raises a key error), aggregates, clusters, and
builds the explanation table: per-cluster mean, chronological month
list, tier description from the 33rd/66th percentile of the cluster
means, and colour. -/
def spending_clusters (labelsFn : List ℚ → Nat → List Nat) (t : Table) :
    Except String ClustersResult :=
  if t.rows.isEmpty then .ok ⟨[], none, []⟩
  else
    match t.monthCol with
    | none => .error "KeyError: Month"
    | some ms =>
      let monthly := groupAgg (clusterExpensePairs t ms)
      let n_samples := monthly.length
      let n_clusters := min 3 n_samples
      if n_clusters < 1 then .ok ⟨monthly, none, []⟩
      else
        let labels := labelsFn (monthly.map Prod.snd) n_clusters
        let withLab := monthly.zip labels
        let clusterIds := isort natLe labels.dedup
        let summary0 := clusterIds.map (fun c =>
          let grp := withLab.filter (fun p => decide (p.2 = c))
          let amts := grp.map (fun p => p.1.2)
          (c, amts.sum / (amts.length : ℚ),
            months_sorted (grp.map (fun p => monthFirstDay p.1.1))))
        let q1 := quantile (summary0.map (fun x => x.2.1)) (33 / 100)
        let q2 := quantile (summary0.map (fun x => x.2.1)) (66 / 100)
        let summary := summary0.map (fun x =>
          ⟨x.1, describe_cluster x.2.1 q1 q2, x.2.1, x.2.2,
            color_dot (toString x.1) cluster_colors⟩)
        .ok ⟨monthly, some labels, summary⟩

/-- Numeric index of a tier label, for stating monotonicity of the
cluster descriptions: Low ↦ 0, Medium ↦ 1, High ↦ 2. -/
def tierIdx (s : String) : Nat :=
  if s = "Low spending month" then 0
  else if s = "Medium spending month" then 1
  else 2


/-! ### Concrete tables used by witnesses and counterexamples -/

/-- The empty transaction table. -/
def emptyTable : Table := ⟨[], none, none⟩

/-- Two expense rows in one month, no `"Salary"` row. -/
def noSalaryTable : Table :=
  ⟨[⟨⟨2025, 1, 1⟩, "Groceries", -100⟩, ⟨⟨2025, 1, 15⟩, "Entertainment", -50⟩],
    none, none⟩

/-- Six expense rows spanning six consecutive months. -/
def sixMonthTable : Table :=
  ⟨[⟨⟨2025, 1, 1⟩, "Groceries", -100⟩, ⟨⟨2025, 2, 1⟩, "Groceries", -100⟩,
    ⟨⟨2025, 3, 1⟩, "Groceries", -100⟩, ⟨⟨2025, 4, 1⟩, "Groceries", -100⟩,
    ⟨⟨2025, 5, 1⟩, "Groceries", -100⟩, ⟨⟨2025, 6, 1⟩, "Groceries", -100⟩],
    none, none⟩

/-- One expense row; no `Month`/`Anomaly` columns. -/
def oneRowTable : Table := ⟨[⟨⟨2025, 1, 1⟩, "Groceries", -5⟩], none, none⟩

/-- Two rows with the same amount (a single distinct amount value). -/
def constAmountTable : Table :=
  ⟨[⟨⟨2025, 1, 1⟩, "Groceries", -5⟩, ⟨⟨2025, 1, 2⟩, "Rent", -5⟩], none, none⟩

/-- Two expense rows in the same month, with the `Month` column set
(January 2025 is month index `2025 * 12 + 0 = 24300`). -/
def singleMonthTable : Table :=
  ⟨[⟨⟨2025, 1, 5⟩, "Groceries", -100⟩, ⟨⟨2025, 1, 20⟩, "Rent", -200⟩],
    some [24300, 24300], none⟩

/-! ### List and quantile lemmas -/

theorem mem_insertLe {α : Type} (le : α → α → Bool) (a x : α) (l : List α) :
    x ∈ insertLe le a l ↔ x = a ∨ x ∈ l := by
  induction l with
  | nil => simp [insertLe]
  | cons y ys ih =>
    by_cases h : le a y = true
    · simp [insertLe, h]
    · simp [insertLe, h, ih]
      tauto

theorem mem_isort {α : Type} (le : α → α → Bool) (x : α) (l : List α) :
    x ∈ isort le l ↔ x ∈ l := by
  induction l with
  | nil => simp [isort]
  | cons y ys ih => simp [isort, mem_insertLe, ih]

theorem length_insertLe {α : Type} (le : α → α → Bool) (a : α) (l : List α) :
    (insertLe le a l).length = l.length + 1 := by
  induction l with
  | nil => simp [insertLe]
  | cons y ys ih =>
    by_cases h : le a y = true
    · simp [insertLe, h]
    · simp [insertLe, h, ih]

theorem length_isort {α : Type} (le : α → α → Bool) (l : List α) :
    (isort le l).length = l.length := by
  induction l with
  | nil => rfl
  | cons y ys ih => simp [isort, length_insertLe, ih]

theorem dedup_all_eq {l : List Nat} {c : Nat} (hne : l ≠ [])
    (hall : ∀ x ∈ l, x = c) : l.dedup = [c] := by
  induction l with
  | nil => exact absurd rfl hne
  | cons y ys ih =>
    have hy : y = c := hall y (List.mem_cons_self _ _)
    cases ys with
    | nil => simp [hy]
    | cons z zs =>
      have hz : z = c := hall z (by simp)
      have hmem : y ∈ z :: zs := by
        rw [hy, hz]; exact List.mem_cons_self _ _
      rw [List.dedup_cons_of_mem hmem]
      exact ih (by simp) (fun x hx => hall x (List.mem_cons_of_mem _ hx))

theorem quantile_all_eq {xs : List ℚ} {c q : ℚ} (hne : xs ≠ [])
    (hq1 : q ≤ 1) (hall : ∀ x ∈ xs, x = c) :
    quantile xs q = c := by
  have hs : ∀ x ∈ isort ratLe xs, x = c := fun x hx =>
    hall x ((mem_isort ratLe x xs).mp hx)
  have hlen : (isort ratLe xs).length = xs.length := length_isort ratLe xs
  have hpos : 0 < xs.length := List.length_pos.mpr hne
  unfold quantile
  set s := isort ratLe xs with hsdef
  have hn : s.length = xs.length := hlen
  have hn0 : s.length ≠ 0 := by omega
  rw [if_neg hn0]
  have hcast : ((s.length : ℚ) - 1) = ((s.length - 1 : Nat) : ℚ) := by
    have : (1 : Nat) ≤ s.length := by omega
    push_cast [Nat.cast_sub this]
    ring
  have hfl : ⌊q * ((s.length : ℚ) - 1)⌋.toNat ≤ s.length - 1 := by
    have hb : q * ((s.length : ℚ) - 1) ≤ ((s.length - 1 : Nat) : ℚ) := by
      rw [← hcast]
      have h0 : (0 : ℚ) ≤ (s.length : ℚ) - 1 := by
        have : (1 : ℚ) ≤ (s.length : ℚ) := by exact_mod_cast Nat.one_le_iff_ne_zero.mpr hn0
        linarith
      calc q * ((s.length : ℚ) - 1) ≤ 1 * ((s.length : ℚ) - 1) :=
            mul_le_mul_of_nonneg_right hq1 h0
        _ = (s.length : ℚ) - 1 := one_mul _
    have := Int.floor_le_floor hb
    rw [Int.floor_natCast] at this
    omega
  have hi_lt : ⌊q * ((s.length : ℚ) - 1)⌋.toNat < s.length := by omega
  have hhi_lt : min (⌊q * ((s.length : ℚ) - 1)⌋.toNat + 1) (s.length - 1) < s.length := by
    omega
  have hlo : s.getD (⌊q * ((s.length : ℚ) - 1)⌋.toNat) 0 = c := by
    rw [List.getD_eq_getElem s 0 hi_lt]
    exact hs _ (List.getElem_mem _)
  have hhi : s.getD (min (⌊q * ((s.length : ℚ) - 1)⌋.toNat + 1) (s.length - 1)) 0 = c := by
    rw [List.getD_eq_getElem s 0 hhi_lt]
    exact hs _ (List.getElem_mem _)
  simp only [hlo, hhi]
  ring

theorem quantile_singleton (x q : ℚ) : quantile [x] q = x := by
  unfold quantile
  norm_num [isort, insertLe]

theorem groupAgg_all_eq {pairs : List (Nat × ℚ)} {m : Nat} (hne : pairs ≠ [])
    (hall : ∀ p ∈ pairs, p.1 = m) :
    groupAgg pairs = [(m, (pairs.map Prod.snd).sum)] := by
  have hfst : ∀ x ∈ pairs.map Prod.fst, x = m := by
    intro x hx
    obtain ⟨p, hp, rfl⟩ := List.mem_map.mp hx
    exact hall p hp
  have hmne : pairs.map Prod.fst ≠ [] := by
    simpa [List.map_eq_nil_iff] using hne
  have hd : (pairs.map Prod.fst).dedup = [m] := dedup_all_eq hmne hfst
  have hfilter : pairs.filter (fun p => decide (p.1 = m)) = pairs := by
    apply List.filter_eq_self.mpr
    intro p hp
    simp [hall p hp]
  unfold groupAgg
  rw [hd]
  simp [isort, insertLe, hfilter]

/-- Numeric form of `tierIdx ∘ describe_cluster`. -/
theorem tierIdx_describe (avg q1 q2 : ℚ) :
    tierIdx (describe_cluster avg q1 q2) =
      if avg < q1 then 0 else if avg < q2 then 1 else 2 := by
  unfold describe_cluster tierIdx
  split_ifs <;> simp_all

/-! ### Claim theorems -/

/-- C1: on a table with expense rows but no `"Salary"` row,
`compute_kpis` returns `avgMonthlyIncome = 0` and
`savingsRatePercent = 0` (the savings-rate division is gated on
`totalIncome > 0`), whatever the sign or size of the savings value. -/
theorem compute_kpis_no_salary_income_rate_zero (t : Table) (hne : t.rows ≠ [])
    (hnosal : ∀ r ∈ t.rows, r.category ≠ "Salary")
    (_hexp : ∃ r ∈ t.rows, r.amount < 0) :
    ((compute_kpis t).1).1 = 0 ∧ ((compute_kpis t).1).2.2.2 = 0 := by
  have he : t.rows.isEmpty = false := by
    simpa [List.isEmpty_iff] using hne
  have hfil : t.rows.filter (fun r => decide (r.category = "Salary")) = [] := by
    apply List.filter_eq_nil_iff.mpr
    intro r hr
    simpa using hnosal r hr
  simp [compute_kpis, he, hfil, lt_irrefl]

theorem compute_kpis_no_salary_income_rate_zero_witness :
    (noSalaryTable.rows ≠ [] ∧
      (∀ r ∈ noSalaryTable.rows, r.category ≠ "Salary") ∧
      (∃ r ∈ noSalaryTable.rows, r.amount < 0)) ∧
    ((compute_kpis noSalaryTable).1).1 = 0 ∧
      ((compute_kpis noSalaryTable).1).2.2.2 = 0 :=
  ⟨⟨by decide, by decide, by decide⟩,
    compute_kpis_no_salary_income_rate_zero noSalaryTable (by decide) (by decide)
      (by decide)⟩

/-- C2: on an empty transaction table, `compute_kpis` returns the
four-tuple `(0, 0, 0, 0)`, `show_anomalies` returns an empty flagged
set, and `forecast_expenses` and `spending_clusters` both return empty
results — for any behaviour of the external model functions. -/
theorem components_empty_table {M : Type}
    (fit : List (Nat × ℚ) → Except String M)
    (getForecast : M → Nat → Except String (Nat → ℚ × ℚ × ℚ))
    (score : List ℚ → ℚ → ℚ) (labelsFn : List ℚ → Nat → List Nat)
    (t : Table) (n : Nat) (ht : t.rows = []) :
    (compute_kpis t).1 = (0, 0, 0, 0) ∧
    (show_anomalies score t).1 = [] ∧
    forecast_expenses fit getForecast t n = .ok [] ∧
    spending_clusters labelsFn t = .ok ⟨[], none, []⟩ := by
  have he : t.rows.isEmpty = true := by simp [ht]
  refine ⟨?_, ?_, ?_, ?_⟩ <;>
    simp [compute_kpis, show_anomalies, forecast_expenses, spending_clusters, he]

theorem components_empty_table_witness :
    emptyTable.rows = [] ∧
    ((compute_kpis emptyTable).1 = (0, 0, 0, 0) ∧
      (show_anomalies (fun _ _ => 0) emptyTable).1 = [] ∧
      forecast_expenses (M := Unit) (fun _ => .ok ()) (fun _ _ => .ok (fun _ => (0, 0, 0)))
        emptyTable 6 = .ok [] ∧
      spending_clusters (fun _ _ => []) emptyTable = .ok ⟨[], none, []⟩) :=
  ⟨rfl, components_empty_table (M := Unit) (fun _ => .ok ())
    (fun _ _ => .ok (fun _ => (0, 0, 0))) (fun _ _ => 0) (fun _ _ => [])
    emptyTable 6 rfl⟩

/-- C3: whenever the expense rows span fewer than 6 distinct months,
`forecast_expenses` returns an empty result for every requested
horizon (and for any behaviour of the model functions) — an
insufficient-data condition, not an error. -/
theorem forecast_expenses_insufficient_months {M : Type}
    (fit : List (Nat × ℚ) → Except String M)
    (getForecast : M → Nat → Except String (Nat → ℚ × ℚ × ℚ))
    (t : Table) (n : Nat) (h6 : (expenseSeries t.rows).length < 6) :
    forecast_expenses fit getForecast t n = .ok [] := by
  by_cases he : t.rows.isEmpty
  · simp [forecast_expenses, he]
  · simp [forecast_expenses, he, h6]

theorem forecast_expenses_insufficient_months_witness :
    (expenseSeries noSalaryTable.rows).length < 6 ∧
    forecast_expenses (M := Unit) (fun _ => .ok ())
      (fun _ _ => .ok (fun _ => (0, 0, 0))) noSalaryTable 12 = .ok [] :=
  ⟨by decide, forecast_expenses_insufficient_months (M := Unit) (fun _ => .ok ())
    (fun _ _ => .ok (fun _ => (0, 0, 0))) noSalaryTable 12 (by decide)⟩

/-- C5, counterexample: the `try/except` of `forecast_expenses` wraps
only model construction and fitting; an error raised by the forecasting
step (`get_forecast`, outside the `try`) propagates to the caller
instead of being converted into an empty result. -/
theorem forecast_step_error_escapes :
    forecast_expenses (M := Unit) (fun _ => .ok ())
      (fun _ _ => .error "numerical error") sixMonthTable 6 =
      .error "numerical error" := by
  rfl

/-- C5, amended: an error raised while constructing or fitting the
seasonal model is caught at the component boundary, and
`forecast_expenses` returns an empty result; only the fitting step is
protected. -/
theorem forecast_expenses_fit_error_caught {M : Type}
    (fit : List (Nat × ℚ) → Except String M)
    (getForecast : M → Nat → Except String (Nat → ℚ × ℚ × ℚ))
    (t : Table) (n : Nat) (e : String)
    (hfit : fit (expenseSeries t.rows) = .error e) :
    forecast_expenses fit getForecast t n = .ok [] := by
  by_cases he : t.rows.isEmpty
  · simp [forecast_expenses, he]
  · by_cases h6 : (expenseSeries t.rows).length < 6
    · simp [forecast_expenses, he, h6]
    · simp [forecast_expenses, he, h6, hfit]

theorem forecast_expenses_fit_error_caught_witness :
    (fun _ : List (Nat × ℚ) => (Except.error "fit failed" : Except String Unit))
        (expenseSeries sixMonthTable.rows) = .error "fit failed" ∧
    forecast_expenses (M := Unit) (fun _ => .error "fit failed")
      (fun _ _ => .ok (fun _ => (0, 0, 0))) sixMonthTable 6 = .ok [] :=
  ⟨rfl, forecast_expenses_fit_error_caught (M := Unit) (fun _ => .error "fit failed")
    (fun _ _ => .ok (fun _ => (0, 0, 0))) sixMonthTable 6 "fit failed" rfl⟩

/-- C7: `describe_cluster` labels with inclusive lower bounds for the
next tier — below `q1` is Low, in `[q1, q2)` is Medium, at or above
`q2` is High (with `q1 ≤ q2`, as holds for the 33rd/66th percentiles)
— and the tier is monotone in the mean. -/
theorem describe_cluster_tiers_and_monotone (avg q1 q2 a b : ℚ) :
    (avg < q1 → describe_cluster avg q1 q2 = "Low spending month") ∧
    (q1 ≤ avg → avg < q2 → describe_cluster avg q1 q2 = "Medium spending month") ∧
    (q1 ≤ q2 → q2 ≤ avg → describe_cluster avg q1 q2 = "High spending month") ∧
    (a < b → tierIdx (describe_cluster a q1 q2) ≤ tierIdx (describe_cluster b q1 q2)) := by
  refine ⟨?_, ?_, ?_, ?_⟩
  · intro h
    unfold describe_cluster
    rw [if_pos h]
  · intro h1 h2
    unfold describe_cluster
    rw [if_neg (not_lt.mpr h1), if_pos h2]
  · intro hq h2
    unfold describe_cluster
    rw [if_neg (not_lt.mpr (le_trans hq h2)), if_neg (not_lt.mpr h2)]
  · intro hab
    rw [tierIdx_describe, tierIdx_describe]
    split_ifs <;> first | (exfalso; linarith) | decide

theorem describe_cluster_tiers_and_monotone_witness :
    describe_cluster 0 1 2 = "Low spending month" ∧
    describe_cluster 1 1 2 = "Medium spending month" ∧
    describe_cluster 2 1 2 = "High spending month" ∧
    tierIdx (describe_cluster 0 1 2) ≤ tierIdx (describe_cluster 2 1 2) :=
  ⟨(describe_cluster_tiers_and_monotone 0 1 2 0 2).1 (by norm_num),
    (describe_cluster_tiers_and_monotone 1 1 2 0 2).2.1 (by norm_num) (by norm_num),
    (describe_cluster_tiers_and_monotone 2 1 2 0 2).2.2.1 (by norm_num) (by norm_num),
    (describe_cluster_tiers_and_monotone 0 1 2 0 2).2.2.2 (by norm_num)⟩

/-- C8, counterexample: with the two January dates in 2021 and the
February date in 2020, `months_sorted` sorts by full date and renders
`"Feb, Jan, Jan"`, not `"Jan, Jan, Feb"` — the claim fails for months
Jan, Jan, Feb in arbitrary years. -/
theorem months_sorted_cross_year_cex :
    months_sorted [⟨2021, 1, 15⟩, ⟨2021, 1, 20⟩, ⟨2020, 2, 10⟩] = "Feb, Jan, Jan" ∧
    ("Feb, Jan, Jan" : String) ≠ "Jan, Jan, Feb" := by
  constructor
  · decide
  · decide

/-- C8, amended: `months_sorted` sorts by full date; on dates in months
Jan, Jan, Feb it renders `"Jan, Jan, Feb"` provided the listed dates
are chronologically nondecreasing (in particular whenever all three
fall in the same calendar year), duplicates preserved. -/
theorem months_sorted_jan_jan_feb (d1 d2 d3 : Date)
    (h1 : d1.month = 1) (h2 : d2.month = 1) (h3 : d3.month = 2)
    (h12 : dateLe d1 d2 = true) (h23 : dateLe d2 d3 = true) :
    months_sorted [d1, d2, d3] = "Jan, Jan, Feb" := by
  have hsort : isort dateLe [d1, d2, d3] = [d1, d2, d3] := by
    simp [isort, insertLe, h12, h23]
  unfold months_sorted
  rw [hsort, List.map_cons, List.map_cons, List.map_cons, List.map_nil, h1, h2, h3]
  decide

theorem months_sorted_jan_jan_feb_witness :
    ((⟨2025, 1, 1⟩ : Date).month = 1 ∧ (⟨2025, 1, 15⟩ : Date).month = 1 ∧
      (⟨2025, 2, 1⟩ : Date).month = 2 ∧
      dateLe ⟨2025, 1, 1⟩ ⟨2025, 1, 15⟩ = true ∧
      dateLe ⟨2025, 1, 15⟩ ⟨2025, 2, 1⟩ = true) ∧
    months_sorted [⟨2025, 1, 1⟩, ⟨2025, 1, 15⟩, ⟨2025, 2, 1⟩] = "Jan, Jan, Feb" :=
  ⟨⟨rfl, rfl, rfl, by decide, by decide⟩,
    months_sorted_jan_jan_feb ⟨2025, 1, 1⟩ ⟨2025, 1, 15⟩ ⟨2025, 2, 1⟩ rfl rfl rfl
      (by decide) (by decide)⟩

/-- C9, counterexample: `show_anomalies` writes the `Anomaly` column
into the caller's table, so invoking it on a table without that column
does not leave the table unchanged — the components are not all pure in
the frame sense claimed. -/
theorem show_anomalies_mutates_table :
    (show_anomalies (fun _ _ => 0) oneRowTable).2 ≠ oneRowTable := by
  decide

/-- C9, amended: `forecast_expenses` and `spending_clusters` compute
from the table without writing back (they work on copies), but on a
non-empty table `compute_kpis` writes the derived `Month` column and
`show_anomalies` writes the `Anomaly` column into the caller's table;
the row data itself is never modified. -/
theorem component_table_effects (t : Table) (score : List ℚ → ℚ → ℚ)
    (hne : t.rows ≠ []) :
    (compute_kpis t).2.rows = t.rows ∧
    (compute_kpis t).2.anomalyCol = t.anomalyCol ∧
    (compute_kpis t).2.monthCol = some (t.rows.map (fun r => monthOf r.date)) ∧
    (show_anomalies score t).2.rows = t.rows ∧
    (show_anomalies score t).2.monthCol = t.monthCol ∧
    (show_anomalies score t).2.anomalyCol =
      some (iso_labels score (5 / 100) (t.rows.map (fun r => r.amount))) := by
  have he : t.rows.isEmpty = false := by
    simpa [List.isEmpty_iff] using hne
  refine ⟨?_, ?_, ?_, ?_, ?_, ?_⟩ <;> simp [compute_kpis, show_anomalies, he]

theorem component_table_effects_witness :
    oneRowTable.rows ≠ [] ∧
    ((compute_kpis oneRowTable).2.rows = oneRowTable.rows ∧
      (compute_kpis oneRowTable).2.anomalyCol = oneRowTable.anomalyCol ∧
      (compute_kpis oneRowTable).2.monthCol =
        some (oneRowTable.rows.map (fun r => monthOf r.date)) ∧
      (show_anomalies (fun _ _ => 0) oneRowTable).2.rows = oneRowTable.rows ∧
      (show_anomalies (fun _ _ => 0) oneRowTable).2.monthCol = oneRowTable.monthCol ∧
      (show_anomalies (fun _ _ => 0) oneRowTable).2.anomalyCol =
        some (iso_labels (fun _ _ => 0) (5 / 100)
          (oneRowTable.rows.map (fun r => r.amount)))) :=
  ⟨by decide, component_table_effects oneRowTable (fun _ _ => 0) (by decide)⟩

/-- C4: on a non-empty table with fewer than 2 distinct amount values
(all amounts equal), every score is tied, the contamination threshold
equals the common score, and no score falls strictly below it — so
`show_anomalies` returns an empty flagged set rather than throwing or
flagging any row, for every score function the fitted forest may
realise. -/
theorem show_anomalies_degenerate_amounts (score : List ℚ → ℚ → ℚ) (t : Table)
    (hne : t.rows ≠ [])
    (hconst : ∀ r ∈ t.rows, ∀ s ∈ t.rows, r.amount = s.amount) :
    (show_anomalies score t).1 = [] := by
  have he : t.rows.isEmpty = false := by
    simpa [List.isEmpty_iff] using hne
  obtain ⟨r0, hr0⟩ := List.exists_mem_of_ne_nil t.rows hne
  have hamem : ∀ x ∈ t.rows.map (fun r => r.amount), x = r0.amount := by
    intro x hx
    obtain ⟨r, hr, rfl⟩ := List.mem_map.mp hx
    exact hconst r hr r0 hr0
  have hsmem : ∀ x ∈ (t.rows.map (fun r => r.amount)).map
      (score (t.rows.map (fun r => r.amount))),
      x = score (t.rows.map (fun r => r.amount)) r0.amount := by
    intro x hx
    obtain ⟨y, hy, rfl⟩ := List.mem_map.mp hx
    rw [hamem y hy]
  have hsne : (t.rows.map (fun r => r.amount)).map
      (score (t.rows.map (fun r => r.amount))) ≠ [] := by
    simp [List.map_eq_nil_iff, hne]
  have hoff : quantile ((t.rows.map (fun r => r.amount)).map
      (score (t.rows.map (fun r => r.amount)))) (5 / 100) =
      score (t.rows.map (fun r => r.amount)) r0.amount :=
    quantile_all_eq hsne (by norm_num) hsmem
  have hlab : ∀ l ∈ iso_labels score (5 / 100) (t.rows.map (fun r => r.amount)),
      l = 1 := by
    intro l hl
    unfold iso_labels at hl
    simp only at hl
    rw [hoff] at hl
    obtain ⟨x, hx, rfl⟩ := List.mem_map.mp hl
    rw [hsmem x hx, if_neg (lt_irrefl _)]
  have hfil : (t.rows.zip (iso_labels score (5 / 100)
      (t.rows.map (fun r => r.amount)))).filter (fun p => decide (p.2 = -1)) = [] := by
    apply List.filter_eq_nil_iff.mpr
    intro p hp
    have : p.2 = 1 := hlab p.2 (List.of_mem_zip hp).2
    simp [this]
  simp [show_anomalies, he, hfil]

theorem show_anomalies_degenerate_amounts_witness :
    (constAmountTable.rows ≠ [] ∧
      ∀ r ∈ constAmountTable.rows, ∀ s ∈ constAmountTable.rows,
        r.amount = s.amount) ∧
    (show_anomalies (fun _ _ => 7) constAmountTable).1 = [] :=
  ⟨⟨by decide, by decide⟩,
    show_anomalies_degenerate_amounts (fun _ _ => 7) constAmountTable (by decide)
      (by decide)⟩

/-- C6: with at least 6 observed expense months and a successful fit
and forecast, `forecast_expenses` returns exactly `n` rows for a
requested horizon `n`, whose months start at the month immediately
after the last observed month and increase strictly month by month. -/
theorem forecast_expenses_success_shape {M : Type}
    (fit : List (Nat × ℚ) → Except String M)
    (getForecast : M → Nat → Except String (Nat → ℚ × ℚ × ℚ))
    (t : Table) (n : Nat) (m : M) (f : Nat → ℚ × ℚ × ℚ)
    (hlen : 6 ≤ (expenseSeries t.rows).length)
    (hfit : fit (expenseSeries t.rows) = .ok m)
    (hget : getForecast m n = .ok f) :
    ∃ l, forecast_expenses fit getForecast t n = .ok l ∧
      l.length = n ∧
      (∀ i, (hi : i < l.length) → (l.get ⟨i, hi⟩).month =
        lastObservedMonth (expenseSeries t.rows) + (i + 1)) ∧
      (∀ i j, (hi : i < l.length) → (hj : j < l.length) → i < j →
        (l.get ⟨i, hi⟩).month < (l.get ⟨j, hj⟩).month) := by
  have hne : t.rows.isEmpty = false := by
    rcases h : t.rows with _ | ⟨r, rs⟩
    · rw [h] at hlen
      simp [expenseSeries, groupAgg, isort] at hlen
    · rfl
  have h6 : ¬ (expenseSeries t.rows).length < 6 := by omega
  refine ⟨(List.range n).map (fun i =>
      ⟨lastObservedMonth (expenseSeries t.rows) + (i + 1),
        (f i).1, (f i).2.1, (f i).2.2⟩), ?_, ?_, ?_, ?_⟩
  · simp [forecast_expenses, hne, h6, hfit, hget]
  · simp
  · intro i hi
    simp [List.get_eq_getElem, List.getElem_map, List.getElem_range]
  · intro i j hi hj hij
    simp only [List.get_eq_getElem, List.getElem_map, List.getElem_range]
    omega

theorem forecast_expenses_success_shape_witness :
    (6 ≤ (expenseSeries sixMonthTable.rows).length ∧
      (fun _ : List (Nat × ℚ) => (Except.ok () : Except String Unit))
        (expenseSeries sixMonthTable.rows) = .ok () ∧
      (fun _ : Unit => fun _ : Nat =>
        (Except.ok (fun _ => (0, 0, 0)) : Except String (Nat → ℚ × ℚ × ℚ))) () 2 =
        .ok (fun _ => (0, 0, 0))) ∧
    (∃ l, forecast_expenses (M := Unit) (fun _ => .ok ())
        (fun _ _ => .ok (fun _ => (0, 0, 0))) sixMonthTable 2 = .ok l ∧
      l.length = 2 ∧
      (∀ i, (hi : i < l.length) → (l.get ⟨i, hi⟩).month =
        lastObservedMonth (expenseSeries sixMonthTable.rows) + (i + 1)) ∧
      (∀ i j, (hi : i < l.length) → (hj : j < l.length) → i < j →
        (l.get ⟨i, hi⟩).month < (l.get ⟨j, hj⟩).month)) :=
  ⟨⟨by decide, rfl, rfl⟩,
    forecast_expenses_success_shape (M := Unit) (fun _ => .ok ())
      (fun _ _ => .ok (fun _ => (0, 0, 0))) sixMonthTable 2 () (fun _ => (0, 0, 0))
      (by decide) rfl rfl⟩

/-- C10: when all expense rows fall in a single month, the cluster
summary has exactly one row, both quantile thresholds (33rd and 66th
percentile of the cluster means) equal that cluster's mean, and the
cluster is labelled "High spending month" — never Low or Medium. -/
theorem spending_clusters_single_month_high
    (labelsFn : List ℚ → Nat → List Nat) (t : Table) (ms : List Nat) (mo : Nat)
    (hm : t.monthCol = some ms)
    (hne : clusterExpensePairs t ms ≠ [])
    (hall : ∀ p ∈ clusterExpensePairs t ms, p.1 = mo)
    (hlab : ∀ a : List ℚ, a.length = 1 →
      ((labelsFn a 1).length = 1 ∧ ∀ l ∈ labelsFn a 1, l < 1)) :
    ∃ res, spending_clusters labelsFn t = .ok res ∧
      res.summary.length = 1 ∧
      ∀ row ∈ res.summary,
        row.description = "High spending month" ∧
        quantile (res.summary.map (fun x => x.amount)) (33 / 100) = row.amount ∧
        quantile (res.summary.map (fun x => x.amount)) (66 / 100) = row.amount := by
  have hrows : t.rows ≠ [] := by
    intro h
    exact hne (by simp [clusterExpensePairs, h])
  have he : t.rows.isEmpty = false := by
    simpa [List.isEmpty_iff] using hrows
  have hagg : groupAgg (clusterExpensePairs t ms) =
      [(mo, ((clusterExpensePairs t ms).map Prod.snd).sum)] :=
    groupAgg_all_eq hne hall
  obtain ⟨hL1, hLlt⟩ := hlab [((clusterExpensePairs t ms).map Prod.snd).sum] rfl
  have hL : labelsFn [((clusterExpensePairs t ms).map Prod.snd).sum] 1 = [0] := by
    rcases hLL : labelsFn [((clusterExpensePairs t ms).map Prod.snd).sum] 1 with _ | ⟨x, xs⟩
    · rw [hLL] at hL1
      simp at hL1
    · rw [hLL] at hL1 hLlt
      have hxs : xs = [] := by
        simpa using hL1
      subst hxs
      have hx : x = 0 := by
        have := hLlt x (by simp)
        omega
      subst hx
      rfl
  have hmain : spending_clusters labelsFn t = .ok
      ⟨[(mo, ((clusterExpensePairs t ms).map Prod.snd).sum)], some [0],
        [⟨0, "High spending month", ((clusterExpensePairs t ms).map Prod.snd).sum,
          months_sorted [monthFirstDay mo], color_dot (toString (0 : Nat)) cluster_colors⟩]⟩ := by
    simp [spending_clusters, he, hm, hagg, hL, isort, insertLe, natLe,
      Function.comp, List.filter_cons, List.filter_nil, quantile_singleton,
      describe_cluster, div_one]
  refine ⟨_, hmain, rfl, ?_⟩
  intro row hrow
  simp only [List.mem_singleton] at hrow
  subst hrow
  exact ⟨rfl, quantile_singleton _ _, quantile_singleton _ _⟩

theorem spending_clusters_single_month_high_witness :
    (singleMonthTable.monthCol = some [24300, 24300] ∧
      clusterExpensePairs singleMonthTable [24300, 24300] ≠ [] ∧
      (∀ p ∈ clusterExpensePairs singleMonthTable [24300, 24300], p.1 = 24300) ∧
      (∀ a : List ℚ, a.length = 1 →
        (((fun a _ => a.map (fun _ => 0)) a 1 : List Nat).length = 1 ∧
          ∀ l ∈ ((fun a _ => a.map (fun _ => 0)) a 1 : List Nat), l < 1))) ∧
    (∃ res, spending_clusters (fun a _ => a.map (fun _ => 0)) singleMonthTable = .ok res ∧
      res.summary.length = 1 ∧
      ∀ row ∈ res.summary,
        row.description = "High spending month" ∧
        quantile (res.summary.map (fun x => x.amount)) (33 / 100) = row.amount ∧
        quantile (res.summary.map (fun x => x.amount)) (66 / 100) = row.amount) :=
  ⟨⟨rfl, by decide, by decide,
      fun a ha => ⟨by simp [ha], fun l hl => by simp at hl; omega⟩⟩,
    spending_clusters_single_month_high (fun a _ => a.map (fun _ => 0))
      singleMonthTable [24300, 24300] 24300 rfl (by decide) (by decide)
      (fun a ha => ⟨by simp [ha], fun l hl => by simp at hl; omega⟩)⟩
